import Mathlib

/-!
Shallow embedding of the libxivdat DAT-file codec (dat_type.rs, dat_error.rs,
dat_file.rs, section.rs, high_level_modules/macro.rs) and proofs about the
spec claims C1..C10.

Modelling conventions:
  * Machine integers (u8/u16/u32/u64) are plain Nat with explicit `% 2^w`
    wherever the Rust code can overflow or wrap in release mode.
  * Byte buffers and file contents are `List Nat` (each element a byte value).
  * Fallible Rust functions returning `Result<_, DATError>` become
    `Except DATError _`; functions returning `std::io::Result` become
    `Except IoError _`.  Rust panics (slice index out of range, arithmetic
    underflow on usize) are modelled by wrapping the result in `Option`,
    with `none` meaning the code panics.
  * The static message strings carried by the error constructors are elided;
    only the error kind is modelled.
  * The `DATFile` struct owns a `std::fs::File`; the model carries the
    on-disk byte content (`fileData`) and the OS cursor (`rawCursor`)
    explicitly.
-/

deriving instance DecidableEq for Except

/-- Model of the error enum `DATError` from dat_error.rs.  The static message
strings are elided; `FileIO` stands for any wrapped `std::io::Error`. -/
inductive DATError where
  | BadEncoding
  | BadHeader
  | Overflow
  | Underflow
  | EndOfFile
  | FileIO
  | IncorrectType
  | InvalidInput
deriving DecidableEq, Repr

/-- Model of `std::io::Error` as produced by the DATFile stream impls:
`invalidInput e` is `Error::new(ErrorKind::InvalidInput, e)` wrapping a
`DATError`; `invalidArgument` is the plain invalid-argument error raised by
the seek guard; `rawSeekFailed` is the OS error for a raw seek to a negative
position. -/
inductive IoError where
  | invalidInput (inner : DATError)
  | invalidArgument
  | rawSeekFailed
deriving DecidableEq, Repr

/-- Enumeration of known FFXIV DAT file types (dat_type.rs).  The associated
header code of each variant is given by `DATType.code`. -/
inductive DATType where
  | Gearset
  | GoldSaucer
  | Hotbar
  | ItemFinder
  | ItemOrder
  | Keybind
  | LogFilter
  | Macro
  | RecentTells
  | UISave
  | Unknown
deriving DecidableEq, Repr

/-- Header code of each `DATType` variant (the enum discriminants in
dat_type.rs). -/
def DATType.code : DATType → Nat
  | .Gearset => 0x006b0005
  | .GoldSaucer => 0x0067000A
  | .Hotbar => 0x00040002
  | .ItemFinder => 0x00CA0008
  | .ItemOrder => 0x00670007
  | .Keybind => 0x00650003
  | .LogFilter => 0x00030004
  | .Macro => 0x00020001
  | .RecentTells => 0x00640006
  | .UISave => 0x00010009
  | .Unknown => 0

/-- Model of `impl From<u32> for DATType`: the guard chain mapping a raw
header code to a type, defaulting to `Unknown`. -/
def DATType.fromCode (x : Nat) : DATType :=
  if x = DATType.Gearset.code then .Gearset
  else if x = DATType.GoldSaucer.code then .GoldSaucer
  else if x = DATType.Hotbar.code then .Hotbar
  else if x = DATType.ItemFinder.code then .ItemFinder
  else if x = DATType.ItemOrder.code then .ItemOrder
  else if x = DATType.Keybind.code then .Keybind
  else if x = DATType.LogFilter.code then .LogFilter
  else if x = DATType.Macro.code then .Macro
  else if x = DATType.RecentTells.code then .RecentTells
  else if x = DATType.UISave.code then .UISave
  else .Unknown

/-- Model of `get_mask_for_type` (dat_type.rs): the XOR mask byte applied to
the content region, `none` for types with no mask. -/
def get_mask_for_type : DATType → Option Nat
  | .Gearset | .GoldSaucer | .ItemFinder | .ItemOrder
  | .Keybind | .Macro | .RecentTells => some 0x73
  | .Hotbar | .UISave => some 0x31
  | .LogFilter => some 0x00
  | .Unknown => none

/-- Model of `get_default_end_byte_for_type` (dat_type.rs). -/
def get_default_end_byte_for_type : DATType → Option Nat
  | .Gearset | .GoldSaucer | .ItemFinder | .ItemOrder
  | .Keybind | .Macro | .RecentTells => some 0xFF
  | .Hotbar => some 0x31
  | .LogFilter => some 0x00
  | .UISave => some 0x21
  | .Unknown => none

/-- Model of `get_default_max_size_for_type` (dat_type.rs). -/
def get_default_max_size_for_type : DATType → Option Nat
  | .Gearset => some 44849
  | .GoldSaucer => some 649
  | .Hotbar => some 204800
  | .ItemFinder => some 14030
  | .ItemOrder => some 15193
  | .Keybind => some 20480
  | .LogFilter => some 2048
  | .Macro => some 286720
  | .RecentTells => some 2048
  | .UISave => some 64512
  | .Unknown => none

/-- Header size in bytes (`HEADER_SIZE` in dat_file.rs, 0x11 = 17). -/
def HEADER_SIZE : Nat := 0x11

/-- Offset of the max_size header value from the on-disk file size
(`MAX_SIZE_OFFSET` in dat_file.rs). -/
def MAX_SIZE_OFFSET : Nat := 32

/-- Index of the file_type header record. -/
def INDEX_FILE_TYPE : Nat := 0x00

/-- Index of the max_size header record. -/
def INDEX_MAX_SIZE : Nat := 0x04

/-- Index of the content_size header record. -/
def INDEX_CONTENT_SIZE : Nat := 0x08

/-- Little-endian u32 read of four consecutive bytes of a buffer starting at
`off` (model of `u32::from_le_bytes` applied to a 4-byte slice). -/
def read_u32_le (bs : List Nat) (off : Nat) : Nat :=
  bs.getD off 0 + 2 ^ 8 * bs.getD (off + 1) 0
    + 2 ^ 16 * bs.getD (off + 2) 0 + 2 ^ 24 * bs.getD (off + 3) 0

/-- Little-endian byte encoding of a u32 value (model of `u32::to_le_bytes`). -/
def u32_le_bytes (n : Nat) : List Nat :=
  [n % 2 ^ 8, n / 2 ^ 8 % 2 ^ 8, n / 2 ^ 16 % 2 ^ 8, n / 2 ^ 24 % 2 ^ 8]

/-- Model of `get_header_contents` (dat_file.rs): decodes a 17-byte header
into `(file_type, max_size, content_size, header_end_byte)`, failing with
`BadHeader` when the type-code mask check `0xff00ff00 & file_type_id > 0`
trips or when `content_size > max_size`. -/
def get_header_contents (header : List Nat) :
    Except DATError (DATType × Nat × Nat × Nat) :=
  let file_type_id := read_u32_le header INDEX_FILE_TYPE
  let max_size := read_u32_le header INDEX_MAX_SIZE
  let content_size := read_u32_le header INDEX_CONTENT_SIZE
  let end_byte := header.getD (HEADER_SIZE - 1) 0
  if 0 < 0xff00ff00 &&& file_type_id then Except.error DATError.BadHeader
  else if max_size < content_size then Except.error DATError.BadHeader
  else Except.ok (DATType.fromCode file_type_id, max_size, content_size, end_byte)

theorem getD_lt_256 (l : List Nat) (hb : ∀ b ∈ l, b < 256) (i : Nat) :
    l.getD i 0 < 256 := by
  by_cases hi : i < l.length
  · rw [List.getD_eq_getElem l 0 hi]
    exact hb _ (List.getElem_mem hi)
  · rw [List.getD_eq_default l 0 (Nat.le_of_not_lt hi)]
    omega

theorem land_ff00ff00_eq (b0 b1 b2 b3 : Nat) (h0 : b0 < 256) (h1 : b1 < 256)
    (h2 : b2 < 256) (h3 : b3 < 256) :
    0xff00ff00 &&& (b0 + 2 ^ 8 * b1 + 2 ^ 16 * b2 + 2 ^ 24 * b3)
      = 2 ^ 8 * b1 + 2 ^ 24 * b3 := by
  apply Nat.eq_of_testBit_eq
  intro i
  rcases Nat.lt_or_ge i 32 with hi | hi
  · interval_cases i <;>
      · simp only [Nat.testBit_and]
        simp only [Nat.testBit_to_div_mod, ← Bool.decide_and, decide_eq_decide]
        norm_num
        omega
  · have hpow : (2 : Nat) ^ 32 ≤ 2 ^ i := Nat.pow_le_pow_right (by norm_num) hi
    have hl : 0xff00ff00 &&& (b0 + 2 ^ 8 * b1 + 2 ^ 16 * b2 + 2 ^ 24 * b3)
        < 2 ^ 32 := by
      rw [Nat.and_comm]
      exact Nat.and_lt_two_pow _ (by norm_num)
    have hr : 2 ^ 8 * b1 + 2 ^ 24 * b3 < 2 ^ 32 := by omega
    rw [Nat.testBit_lt_two_pow (Nat.lt_of_lt_of_le hl hpow),
      Nat.testBit_lt_two_pow (Nat.lt_of_lt_of_le hr hpow)]

/-- C2: decoding a 17-byte header reads the little-endian u32 fields at
offsets 0, 4 and 8 and the end byte at offset 16, and fails with `BadHeader`
exactly when the type-code byte at index 1 or 3 is nonzero or when
`content_size > max_size`; in the remaining cases it returns the decoded
tuple. -/
theorem C2_header_decode (header : List Nat) (h17 : header.length = 17)
    (hb : ∀ b ∈ header, b < 256) :
    (get_header_contents header = Except.error DATError.BadHeader ↔
      (0 < header.getD 1 0 ∨ 0 < header.getD 3 0 ∨
        read_u32_le header 4 < read_u32_le header 8))
    ∧ (¬(0 < header.getD 1 0 ∨ 0 < header.getD 3 0 ∨
          read_u32_le header 4 < read_u32_le header 8) →
        get_header_contents header =
          Except.ok (DATType.fromCode (read_u32_le header 0),
            read_u32_le header 4, read_u32_le header 8, header.getD 16 0)) := by
  have hmask : 0xff00ff00 &&& read_u32_le header 0
      = 2 ^ 8 * header.getD 1 0 + 2 ^ 24 * header.getD 3 0 := by
    have e : read_u32_le header 0 = header.getD 0 0 + 2 ^ 8 * header.getD 1 0
        + 2 ^ 16 * header.getD 2 0 + 2 ^ 24 * header.getD 3 0 := rfl
    rw [e]
    exact land_ff00ff00_eq _ _ _ _ (getD_lt_256 header hb 0)
      (getD_lt_256 header hb 1) (getD_lt_256 header hb 2)
      (getD_lt_256 header hb 3)
  have hiff : (0 < 0xff00ff00 &&& read_u32_le header 0) ↔
      (0 < header.getD 1 0 ∨ 0 < header.getD 3 0) := by
    rw [hmask]; omega
  constructor
  · simp only [get_header_contents]
    split
    · rename_i hcond
      simp only [true_iff]
      have := hiff.mp hcond
      tauto
    · rename_i hcond
      split
      · rename_i hsz
        simp only [true_iff]
        right; right
        exact hsz
      · rename_i hsz
        simp only [false_iff, reduceCtorEq]
        intro hcontra
        rcases hcontra with h | h | h
        · exact hcond (hiff.mpr (Or.inl h))
        · exact hcond (hiff.mpr (Or.inr h))
        · exact hsz h
  · intro hno
    simp only [get_header_contents]
    rw [if_neg, if_neg]
    · rfl
    · intro hsz; exact hno (Or.inr (Or.inr hsz))
    · intro hcond; rcases hiff.mp hcond with h | h
      · exact hno (Or.inl h)
      · exact hno (Or.inr (Or.inl h))

/-- Example header bytes from the spec: file type 0 (Unknown), max_size 2,
content_size 2, end byte 0xFF. -/
def exampleHeader1 : List Nat :=
  [0, 0, 0, 0, 2, 0, 0, 0, 2, 0, 0, 0, 0, 0, 0, 0, 0xFF]

/-- Example header bytes from the spec with content_size 3 > max_size 2. -/
def exampleHeader2 : List Nat :=
  [0, 0, 0, 0, 2, 0, 0, 0, 3, 0, 0, 0, 0, 0, 0, 0, 0xFF]

/-- Witness for C2: the two worked examples from the spec, obtained by
applying the general header-decode theorem at concrete inputs. -/
theorem C2_header_decode_w :
    get_header_contents exampleHeader1 =
      Except.ok (DATType.Unknown, 2, 2, 0xFF)
    ∧ get_header_contents exampleHeader2 = Except.error DATError.BadHeader := by
  constructor
  · exact (C2_header_decode exampleHeader1 rfl (by decide)).2 (by decide)
  · exact (C2_header_decode exampleHeader2 rfl (by decide)).1.mpr (by decide)

/-- Model of the `DATFile` struct (dat_file.rs) together with the state of
its underlying `std::fs::File`: `fileData` is the on-disk byte content and
`rawCursor` the OS file cursor. -/
structure DATFile where
  content_size : Nat
  file_type : DATType
  header_end_byte : Nat
  max_size : Nat
  rawCursor : Nat
  fileData : List Nat
deriving DecidableEq, Repr

/-- Model of `std::io::SeekFrom`. -/
inductive SeekFrom where
  | start (offset : Nat)
  | current (offset : Int)
  | fromEnd (offset : Int)

/-- Seek semantics of the raw `std::fs::File`: resolves a `SeekFrom` against
the file length and cursor, failing (OS error) when the target position is
negative. -/
def rawSeek (fileLen cursor : Nat) : SeekFrom → Option Nat
  | .start n => some n
  | .current i => if (cursor : Int) + i < 0 then none else some ((cursor : Int) + i).toNat
  | .fromEnd i => if (fileLen : Int) + i < 0 then none else some ((fileLen : Int) + i).toNat

/-- Wrapping u64 subtraction, modelling `a - b` on u64 in release mode for
`a, b < 2^64`. -/
def wrapSub64 (a b : Nat) : Nat := (a + 2 ^ 64 - b) % 2 ^ 64

/-- Model of `impl Seek for DATFile` (dat_file.rs).  A from-current seek that
would land the raw cursor before the header boundary is rejected with an
invalid-argument error; a from-end seek offsets the raw end-seek by
`-(max_size - content_size) - (MAX_SIZE_OFFSET - HEADER_SIZE) - 1`; a
from-start seek offsets by `HEADER_SIZE`.  The returned position is the raw
cursor minus `HEADER_SIZE` (u64 wrapping subtraction). -/
def DATFile.seek (st : DATFile) (pos : SeekFrom) :
    Except IoError (DATFile × Nat) :=
  match pos with
  | .current offset =>
    if (st.rawCursor : Int) + offset < (HEADER_SIZE : Int) then
      Except.error IoError.invalidArgument
    else
      match rawSeek st.fileData.length st.rawCursor (.current offset) with
      | none => Except.error IoError.rawSeekFailed
      | some c => Except.ok ({ st with rawCursor := c }, wrapSub64 c HEADER_SIZE)
  | .fromEnd offset =>
    match rawSeek st.fileData.length st.rawCursor
        (.fromEnd (offset - ((st.max_size : Int) - (st.content_size : Int))
          - ((MAX_SIZE_OFFSET : Int) - (HEADER_SIZE : Int)) - 1)) with
    | none => Except.error IoError.rawSeekFailed
    | some c => Except.ok ({ st with rawCursor := c }, wrapSub64 c HEADER_SIZE)
  | .start offset =>
    match rawSeek st.fileData.length st.rawCursor (.start (HEADER_SIZE + offset)) with
    | none => Except.error IoError.rawSeekFailed
    | some c => Except.ok ({ st with rawCursor := c }, wrapSub64 c HEADER_SIZE)

/-- Model of `DATFile::open` (dat_file.rs) on the byte content of the file:
reads exactly 17 header bytes (an end-of-stream io error, wrapped as
`DATError::FileIO`, if fewer are available), decodes and validates them with
`get_header_contents`, and builds the `DATFile` with the raw cursor left
after the header. -/
def DATFile.open_file (bytes : List Nat) : Except DATError DATFile :=
  if bytes.length < HEADER_SIZE then Except.error DATError.FileIO
  else
    match get_header_contents (bytes.take HEADER_SIZE) with
    | Except.error e => Except.error e
    | Except.ok (t, ms, cs, eb) =>
      Except.ok ⟨cs, t, eb, ms, HEADER_SIZE, bytes⟩

/-- A 34-byte file whose header declares content_size 0 and max_size 2. -/
def zeroContentFile : List Nat :=
  [0, 0, 0, 0, 2, 0, 0, 0, 0, 0, 0, 0, 0, 0, 0, 0, 0xFF] ++ List.replicate 17 0

/-- C3 counterexample: opening a header with `content_size = 0` succeeds (the
claim says it must fail with a header-validation error), so open does not
establish `0 < content_size`. -/
theorem C3_open_zero_content :
    ∃ f, DATFile.open_file zeroContentFile = Except.ok f ∧ f.content_size = 0 := by
  refine ⟨⟨0, DATType.Unknown, 0xFF, 2, HEADER_SIZE, zeroContentFile⟩, ?_, rfl⟩
  decide

/-- C3 (amended): every `DATFile` successfully constructed by the open
operation satisfies `content_size ≤ max_size`; the strict lower bound
`0 < content_size` is not enforced by open. -/
theorem C3_open_invariant (bytes : List Nat) (f : DATFile)
    (h : DATFile.open_file bytes = Except.ok f) :
    f.content_size ≤ f.max_size := by
  unfold DATFile.open_file at h
  split at h
  · exact absurd h (by simp)
  · split at h
    · exact absurd h (by simp)
    · rename_i t ms cs eb heq
      injection h with h2
      subst h2
      show cs ≤ ms
      revert heq
      simp only [get_header_contents]
      split
      · intro heq; exact absurd heq (by simp)
      · split
        · intro heq; exact absurd heq (by simp)
        · rename_i hsz
          intro heq
          injection heq with he
          simp only [Prod.mk.injEq] at he
          omega

/-- Witness for C3's amended theorem at a concrete input. -/
theorem C3_open_invariant_w :
    (∃ f, DATFile.open_file zeroContentFile = Except.ok f ∧
      f.content_size ≤ f.max_size) := by
  refine ⟨⟨0, DATType.Unknown, 0xFF, 2, HEADER_SIZE, zeroContentFile⟩, by decide, ?_⟩
  exact C3_open_invariant zeroContentFile _ (by decide)


theorem wrapSub64_of_le (c : Nat) (h1 : HEADER_SIZE ≤ c) (h2 : c < 2 ^ 64) :
    wrapSub64 c HEADER_SIZE = c - HEADER_SIZE := by
  have h17 : HEADER_SIZE = 17 := rfl
  unfold wrapSub64
  rw [h17] at h1 ⊢
  have he : c + 2 ^ 64 - 17 = (c - 17) + 2 ^ 64 := by omega
  rw [he, Nat.add_mod_right]
  exact Nat.mod_eq_of_lt (by omega)

/-- C4: on an open DATFile whose on-disk length is `max_size + 32`, a
successful from-end seek with offset `k` resolves the raw cursor to
`HEADER_SIZE + content_size - 1 + k`, and every successful seek of any
origin reports the result as the raw cursor minus `HEADER_SIZE`. -/
theorem C4_seek_end (st : DATFile) (k : Int)
    (hlen : st.fileData.length = st.max_size + 32)
    (hcs1 : 1 ≤ st.content_size)
    (hms : st.max_size < 2 ^ 32)
    (hk0 : 0 ≤ (st.content_size : Int) - 1 + k) :
    (∃ st2 res, st.seek (SeekFrom.fromEnd k) = Except.ok (st2, res)
      ∧ (st2.rawCursor : Int) = (HEADER_SIZE : Int) + ((st.content_size : Int) - 1) + k)
    ∧ (∀ pos st2 res, st.seek pos = Except.ok (st2, res) →
        HEADER_SIZE ≤ st2.rawCursor → st2.rawCursor < 2 ^ 64 →
        res = st2.rawCursor - HEADER_SIZE) := by
  have h17 : HEADER_SIZE = 17 := rfl
  have hmo : ((MAX_SIZE_OFFSET : Nat) : Int) = 32 := rfl
  have hhs : ((HEADER_SIZE : Nat) : Int) = 17 := rfl
  constructor
  · have key : (st.fileData.length : Int) +
        (k - ((st.max_size : Int) - (st.content_size : Int))
          - ((MAX_SIZE_OFFSET : Int) - (HEADER_SIZE : Int)) - 1)
        = (st.content_size : Int) + 16 + k := by
      rw [hlen, hmo, hhs]
      push_cast
      ring
    simp only [DATFile.seek, rawSeek]
    rw [key, if_neg (by omega)]
    refine ⟨_, _, rfl, ?_⟩
    show ((((st.content_size : Int) + 16 + k).toNat : Nat) : Int)
        = (HEADER_SIZE : Int) + ((st.content_size : Int) - 1) + k
    rw [Int.toNat_of_nonneg (by omega), hhs]
    ring
  · intro pos st2 res hok hge hlt
    cases pos with
    | start offset =>
      simp only [DATFile.seek, rawSeek] at hok
      injection hok with h2
      rw [Prod.mk.injEq] at h2
      obtain ⟨h3, h4⟩ := h2
      subst h3
      subst h4
      exact wrapSub64_of_le _ hge hlt
    | current offset =>
      simp only [DATFile.seek, rawSeek] at hok
      split at hok
      · exact absurd hok (by simp)
      · split at hok
        · exact absurd hok (by simp)
        · injection hok with h2
          rw [Prod.mk.injEq] at h2
          obtain ⟨h3, h4⟩ := h2
          subst h3
          subst h4
          exact wrapSub64_of_le _ hge hlt
    | fromEnd offset =>
      simp only [DATFile.seek, rawSeek] at hok
      split at hok
      · exact absurd hok (by simp)
      · injection hok with h2
        rw [Prod.mk.injEq] at h2
        obtain ⟨h3, h4⟩ := h2
        subst h3
        subst h4
        exact wrapSub64_of_le _ hge hlt

/-- A small open DATFile used as a concrete witness: content_size 2,
max_size 2, unknown type, 34 bytes on disk, cursor just past the header. -/
def seekWitnessFile : DATFile :=
  ⟨2, DATType.Unknown, 0xFF, 2, HEADER_SIZE, List.replicate 34 0⟩

/-- Witness for C4 at a concrete input: seek(End(-1)) lands the raw cursor
on the last content byte before the trailing NUL. -/
theorem C4_seek_end_w :
    (seekWitnessFile.fileData.length = seekWitnessFile.max_size + 32
      ∧ 1 ≤ seekWitnessFile.content_size)
    ∧ (∃ st2 res, seekWitnessFile.seek (SeekFrom.fromEnd (-1)) = Except.ok (st2, res)
        ∧ (st2.rawCursor : Int) = (HEADER_SIZE : Int)
          + ((seekWitnessFile.content_size : Int) - 1) + (-1)) :=
  ⟨⟨by decide, by decide⟩,
    (C4_seek_end seekWitnessFile (-1) (by decide) (by decide) (by decide)
      (by decide)).1⟩

/-- Semantics of a raw positioned file write: overwrites `bs` into `data`
starting at byte offset `pos`, zero-extending the file first if `pos` lies
past its end and growing it if the write runs past its end. -/
def writeBytesAt (data : List Nat) (pos : Nat) (bs : List Nat) : List Nat :=
  data.take pos ++ List.replicate (pos - data.length) 0 ++ bs
    ++ data.drop (pos + bs.length)

theorem length_take_append_replicate (data : List Nat) (pos : Nat) :
    (data.take pos ++ List.replicate (pos - data.length) 0).length = pos := by
  simp [List.length_take]
  omega

theorem writeBytesAt_getD_lt (data : List Nat) (pos : Nat) (bs : List Nat)
    (i : Nat) (h : i < pos) :
    (writeBytesAt data pos bs).getD i 0 = data.getD i 0 := by
  have hpr := length_take_append_replicate data pos
  unfold writeBytesAt
  rw [List.getD_eq_getElem?_getD, List.getD_eq_getElem?_getD,
    List.getElem?_append_left (by rw [List.length_append, hpr]; omega),
    List.getElem?_append_left (by rw [hpr]; exact h)]
  rcases Nat.lt_or_ge i data.length with hi | hi
  · rw [List.getElem?_append_left (by simp [List.length_take]; omega),
      List.getElem?_take_of_lt h]
  · rw [List.getElem?_append_right (by simp [List.length_take]; omega),
      List.getElem?_replicate,
      if_pos (by simp [List.length_take]; omega),
      List.getElem?_eq_none hi]
    rfl

theorem writeBytesAt_getD_mid (data : List Nat) (pos : Nat) (bs : List Nat)
    (i : Nat) (h1 : pos ≤ i) (h2 : i < pos + bs.length) :
    (writeBytesAt data pos bs).getD i 0 = bs.getD (i - pos) 0 := by
  have hpr := length_take_append_replicate data pos
  unfold writeBytesAt
  rw [List.getD_eq_getElem?_getD, List.getD_eq_getElem?_getD,
    List.getElem?_append_left (by rw [List.length_append, hpr]; omega),
    List.getElem?_append_right (by rw [hpr]; exact h1), hpr]

theorem writeBytesAt_getD_ge (data : List Nat) (pos : Nat) (bs : List Nat)
    (i : Nat) (h : pos + bs.length ≤ i) :
    (writeBytesAt data pos bs).getD i 0 = data.getD i 0 := by
  have hpr := length_take_append_replicate data pos
  unfold writeBytesAt
  rw [List.getD_eq_getElem?_getD, List.getD_eq_getElem?_getD,
    List.getElem?_append_right (by rw [List.length_append, hpr]; omega),
    List.length_append, hpr, List.getElem?_drop]
  congr 2
  omega

/-- Application of the per-type XOR mask to a byte buffer: maps `b ^ mask`
over the buffer when the type defines a mask, otherwise returns the buffer
unchanged.  This is the masking loop shared by the Read and Write impls in
dat_file.rs. -/
def maskBytes (t : DATType) (bs : List Nat) : List Nat :=
  match get_mask_for_type t with
  | some m => bs.map (fun b => b ^^^ m)
  | none => bs

theorem maskBytes_nil (t : DATType) : maskBytes t [] = [] := by
  unfold maskBytes
  split <;> rfl

/-- Model of `impl Read for DATFile` (dat_file.rs).  The buffer is
represented by its length; the returned value is `(count, copied bytes,
new state)`.  `none` models a panic: in release mode, when the cursor sits
strictly past the content end, the wrapping u32 subtraction makes
`read_len` huge and the copy `buf[..read_len]` panics (in debug mode the
subtraction itself panics). -/
def DATFile.read (st : DATFile) (bufLen : Nat) :
    Option (Except IoError (Nat × List Nat × DATFile)) :=
  if (st.rawCursor : Int) + 0 < (HEADER_SIZE : Int) then
    some (Except.error IoError.invalidArgument)
  else
    let cur_pos := wrapSub64 st.rawCursor HEADER_SIZE % 2 ^ 32
    let max_end := (st.content_size + 2 ^ 32 - 1) % 2 ^ 32
    let read_end :=
      if bufLen < 2 ^ 32 ∧ (cur_pos + bufLen) % 2 ^ 32 < max_end then
        (cur_pos + bufLen) % 2 ^ 32
      else max_end
    let read_len := (read_end + 2 ^ 32 - cur_pos) % 2 ^ 32
    if read_len < 1 then some (Except.ok (0, [], st))
    else
      let count := min read_len (st.fileData.length - st.rawCursor)
      let internal := (st.fileData.drop st.rawCursor).take count
        ++ List.replicate (read_len - count) 0
      let out := maskBytes st.file_type internal
      if bufLen < read_len then none
      else some (Except.ok (count, out, { st with rawCursor := st.rawCursor + count }))

/-- Model of `DATFile::write_content_size_header` (dat_file.rs): writes the
little-endian content-size field at header offset 8, restores the raw
cursor, and updates the in-memory mirror. -/
def DATFile.write_content_size_header (st : DATFile) (size : Nat) : DATFile :=
  { st with
    content_size := size,
    fileData := writeBytesAt st.fileData INDEX_CONTENT_SIZE (u32_le_bytes size) }

/-- Model of `impl Write for DATFile` (dat_file.rs).  `none` would model a
panic (the write path has none in release mode); errors are io
invalid-input errors wrapping a `DATError::Overflow`.  Release-mode
semantics: `buf_len + 1` is computed with wrapping u32 addition before the
`checked_add` against the cursor. -/
def DATFile.write (st : DATFile) (buf : List Nat) :
    Option (Except IoError (Nat × DATFile)) :=
  if (st.rawCursor : Int) + 0 < (HEADER_SIZE : Int) then
    some (Except.error IoError.invalidArgument)
  else
    let content_cursor := wrapSub64 st.rawCursor HEADER_SIZE % 2 ^ 32
    if 2 ^ 32 ≤ buf.length then
      some (Except.error (IoError.invalidInput DATError.Overflow))
    else
      let buf_len := buf.length
      let bl1 := (buf_len + 1) % 2 ^ 32
      if 2 ^ 32 ≤ content_cursor + bl1 then
        some (Except.error (IoError.invalidInput DATError.Overflow))
      else
        let new_content_size := content_cursor + bl1
        if st.content_size < new_content_size ∧ st.max_size < new_content_size then
          some (Except.error (IoError.invalidInput DATError.Overflow))
        else
          let st1 := if st.content_size < new_content_size then
            st.write_content_size_header new_content_size else st
          let masked := maskBytes st1.file_type buf
          some (Except.ok (buf.length,
            { st1 with
              fileData := writeBytesAt st1.fileData st1.rawCursor masked,
              rawCursor := st1.rawCursor + buf.length }))

/-- Model of `DATFile::set_content_size` (dat_file.rs): no-op when
unchanged, rejects zero and sizes above `max_size`; on grow seeks to
`SeekFrom::End(0)` and pads with the mask byte (or 0), on shrink seeks to
`SeekFrom::Start(new_size)` and pads with literal zeros, then writes the
content-size header and restores the pre-call raw cursor.  (The usize = 16
chunking branch cannot trigger on a 64-bit host and is not modelled.) -/
def DATFile.set_content_size (st : DATFile) (new_size : Nat) :
    Except DATError DATFile :=
  if new_size = st.content_size then Except.ok st
  else if new_size = 0 then Except.error DATError.InvalidInput
  else if st.max_size < new_size then Except.error DATError.Overflow
  else
    let pre := st.rawCursor
    match (if st.content_size < new_size then st.seek (SeekFrom.fromEnd 0)
      else st.seek (SeekFrom.start new_size)) with
    | Except.error _ => Except.error DATError.FileIO
    | Except.ok (st1, _) =>
      let padding_byte := if st.content_size < new_size then
        (get_mask_for_type st.file_type).getD 0 else 0
      let write_size := if st.content_size < new_size then
        new_size - st.content_size else st.content_size - new_size
      let st2 := { st1 with
        fileData := writeBytesAt st1.fileData st1.rawCursor
          (List.replicate write_size padding_byte),
        rawCursor := st1.rawCursor + write_size }
      let st3 := st2.write_content_size_header new_size
      Except.ok { st3 with rawCursor := pre }

/-- An open DATFile with content_size 2 whose cursor was seeked to logical
position 3, strictly past the content end. -/
def readPastEndFile : DATFile :=
  ⟨2, DATType.Unknown, 0xFF, 2, 20, List.replicate 34 0⟩

/-- C5 counterexample: with the logical cursor strictly beyond the content
end (cursor 3, content_size 2), read does not return Ok(0) — the wrapping
length computation makes the copy panic (modelled as `none`). -/
theorem C5_read_past_end_panics : readPastEndFile.read 1 = none := by decide

/-- C5 (amended): for a cursor at or before the content end and a buffer
whose length does not overflow the u32 cursor arithmetic, read copies
exactly `min (buffer length) (content_size - 1 - cursor)` bytes — never the
trailing NUL — applies the per-type XOR mask to the returned bytes, and
returns Ok(0) exactly at the content end. -/
theorem C5_read_clamp (st : DATFile) (bufLen : Nat)
    (h17 : HEADER_SIZE ≤ st.rawCursor)
    (hcs1 : 1 ≤ st.content_size)
    (hcm : st.content_size ≤ st.max_size)
    (hms : st.max_size < 2 ^ 32)
    (hlen : st.fileData.length = st.max_size + 32)
    (hc : st.rawCursor - HEADER_SIZE ≤ st.content_size - 1)
    (hsafe : st.rawCursor - HEADER_SIZE + bufLen < 2 ^ 32 ∨ 2 ^ 32 ≤ bufLen) :
    st.read bufLen = some (Except.ok
      (min bufLen (st.content_size - 1 - (st.rawCursor - HEADER_SIZE)),
       maskBytes st.file_type ((st.fileData.drop st.rawCursor).take
         (min bufLen (st.content_size - 1 - (st.rawCursor - HEADER_SIZE)))),
       { st with rawCursor := st.rawCursor + min bufLen (st.content_size - 1 - (st.rawCursor - HEADER_SIZE)) })) := by
  have h17n : HEADER_SIZE = 17 := rfl
  have hclt : st.rawCursor - HEADER_SIZE < 2 ^ 32 := by omega
  have hraw64 : st.rawCursor < 2 ^ 64 := by omega
  have hguard : ¬ ((st.rawCursor : Int) + 0 < (HEADER_SIZE : Int)) := by
    have hcast : ((HEADER_SIZE : Nat) : Int) = 17 := rfl
    omega
  have hcur : wrapSub64 st.rawCursor HEADER_SIZE % 2 ^ 32
      = st.rawCursor - HEADER_SIZE := by
    rw [wrapSub64_of_le _ h17 hraw64]
    exact Nat.mod_eq_of_lt hclt
  have hmaxend : (st.content_size + 2 ^ 32 - 1) % 2 ^ 32
      = st.content_size - 1 := by omega
  have havail : st.fileData.length - st.rawCursor
      = st.max_size + 15 - (st.rawCursor - HEADER_SIZE) := by omega
  simp only [DATFile.read, hcur, hmaxend, havail]
  rw [if_neg hguard]
  rcases hsafe with hA | hB
  · simp only [Nat.mod_eq_of_lt hA]
    rcases Nat.lt_or_ge (st.rawCursor - HEADER_SIZE + bufLen)
        (st.content_size - 1) with ha1 | ha2
    · have hcp : bufLen < 2 ^ 32 ∧
          st.rawCursor - HEADER_SIZE + bufLen < st.content_size - 1 :=
        ⟨by omega, ha1⟩
      rw [if_pos hcp]
      have hrl : st.rawCursor - HEADER_SIZE + bufLen + 2 ^ 32
          - (st.rawCursor - HEADER_SIZE) = bufLen + 2 ^ 32 := by omega
      rw [hrl, Nat.add_mod_right,
        Nat.mod_eq_of_lt (show bufLen < 2 ^ 32 by omega)]
      have hmin : min bufLen
          (st.content_size - 1 - (st.rawCursor - HEADER_SIZE)) = bufLen := by
        omega
      rw [hmin]
      rcases Nat.eq_zero_or_pos bufLen with hb0 | hbpos
      · subst hb0
        simp [maskBytes_nil]
      · have hn1 : ¬ (bufLen < 1) := by omega
        rw [if_neg hn1]
        have hcount : min bufLen
            (st.max_size + 15 - (st.rawCursor - HEADER_SIZE)) = bufLen := by
          omega
        rw [hcount]
        have hnf : ¬ (bufLen < bufLen) := by omega
        rw [if_neg hnf]
        simp
    · have hcp : ¬ (bufLen < 2 ^ 32 ∧
          st.rawCursor - HEADER_SIZE + bufLen < st.content_size - 1) := by omega
      rw [if_neg hcp]
      have hbig : st.content_size - 1 - (st.rawCursor - HEADER_SIZE) ≤ bufLen := by
        omega
      have hrl : st.content_size - 1 + 2 ^ 32 - (st.rawCursor - HEADER_SIZE)
          = (st.content_size - 1 - (st.rawCursor - HEADER_SIZE)) + 2 ^ 32 := by
        omega
      rw [hrl, Nat.add_mod_right, Nat.mod_eq_of_lt
        (show st.content_size - 1 - (st.rawCursor - HEADER_SIZE) < 2 ^ 32 by omega)]
      have hmin : min bufLen (st.content_size - 1 - (st.rawCursor - HEADER_SIZE))
          = st.content_size - 1 - (st.rawCursor - HEADER_SIZE) := by omega
      rw [hmin]
      rcases Nat.eq_or_lt_of_le hc with hce | hclt2
      · have hz : st.content_size - 1 - (st.rawCursor - HEADER_SIZE) = 0 := by
          omega
        rw [hz]
        simp [maskBytes_nil]
      · have hn1 : ¬ (st.content_size - 1 - (st.rawCursor - HEADER_SIZE) < 1) := by
          omega
        rw [if_neg hn1]
        have hcount : min (st.content_size - 1 - (st.rawCursor - HEADER_SIZE))
            (st.max_size + 15 - (st.rawCursor - HEADER_SIZE))
            = st.content_size - 1 - (st.rawCursor - HEADER_SIZE) := by omega
        rw [hcount]
        have hnf : ¬ (bufLen < st.content_size - 1 - (st.rawCursor - HEADER_SIZE)) := by
          omega
        rw [if_neg hnf]
        simp
  · have hcp : ¬ (bufLen < 2 ^ 32 ∧
        (st.rawCursor - HEADER_SIZE + bufLen) % 2 ^ 32 < st.content_size - 1) := by
      omega
    rw [if_neg hcp]
    have hbig : st.content_size - 1 - (st.rawCursor - HEADER_SIZE) ≤ bufLen := by
      omega
    have hrl : st.content_size - 1 + 2 ^ 32 - (st.rawCursor - HEADER_SIZE)
        = (st.content_size - 1 - (st.rawCursor - HEADER_SIZE)) + 2 ^ 32 := by
      omega
    rw [hrl, Nat.add_mod_right, Nat.mod_eq_of_lt
      (show st.content_size - 1 - (st.rawCursor - HEADER_SIZE) < 2 ^ 32 by omega)]
    have hmin : min bufLen (st.content_size - 1 - (st.rawCursor - HEADER_SIZE))
        = st.content_size - 1 - (st.rawCursor - HEADER_SIZE) := by omega
    rw [hmin]
    rcases Nat.eq_or_lt_of_le hc with hce | hclt2
    · have hz : st.content_size - 1 - (st.rawCursor - HEADER_SIZE) = 0 := by
        omega
      rw [hz]
      simp [maskBytes_nil]
    · have hn1 : ¬ (st.content_size - 1 - (st.rawCursor - HEADER_SIZE) < 1) := by
        omega
      rw [if_neg hn1]
      have hcount : min (st.content_size - 1 - (st.rawCursor - HEADER_SIZE))
          (st.max_size + 15 - (st.rawCursor - HEADER_SIZE))
          = st.content_size - 1 - (st.rawCursor - HEADER_SIZE) := by omega
      rw [hcount]
      have hnf : ¬ (bufLen < st.content_size - 1 - (st.rawCursor - HEADER_SIZE)) := by
        omega
      rw [if_neg hnf]
      simp

/-- An open Macro-type (masked) DATFile with two content bytes 0x36 0x37 on
disk, content_size 3, max_size 4. -/
def readWitnessFile : DATFile :=
  ⟨3, DATType.Macro, 0xFF, 4, 17, List.replicate 17 0 ++ [0x36, 0x37] ++ List.replicate 17 0⟩

/-- Witness for C5's amended theorem: a two-byte read from the start of a
masked file returns both content bytes with the 0x73 mask applied. -/
theorem C5_read_clamp_w :
    (1 ≤ readWitnessFile.content_size
      ∧ readWitnessFile.rawCursor - HEADER_SIZE ≤ readWitnessFile.content_size - 1)
    ∧ readWitnessFile.read 2 = some (Except.ok (2, [0x45, 0x44],
        { readWitnessFile with rawCursor := 19 })) :=
  ⟨⟨by decide, by decide⟩,
    C5_read_clamp readWitnessFile 2 (by decide) (by decide) (by decide)
      (by decide) (by decide) (by decide) (Or.inl (by decide))⟩

/-- An open DATFile with content_size 1 and max_size 100. -/
def hugeWriteFile : DATFile :=
  ⟨1, DATType.Unknown, 0xFF, 100, 17, List.replicate 132 0⟩

/-- C6 code-bug evidence: writing a buffer of exactly u32::MAX bytes at
cursor 0 makes `buf_len + 1` wrap to 0, so the checked_add overflow guard
and the max-size guard are both skipped and the write succeeds, although
the post-write content size `0 + u32::MAX + 1 = 2^32` exceeds both
`max_size` and `u32::MAX` and the claim requires an invalid-argument
error.  (In a debug build the addition itself panics.) -/
theorem C6_write_u32_max_len :
    ∃ k st2, hugeWriteFile.write (List.replicate 4294967295 0)
      = some (Except.ok (k, st2)) := by
  have h1 : hugeWriteFile.rawCursor = 17 := rfl
  have h2 : hugeWriteFile.content_size = 1 := rfl
  have h3 : hugeWriteFile.file_type = DATType.Unknown := rfl
  simp only [DATFile.write, h1, h2, h3, List.length_replicate]
  norm_num [wrapSub64, HEADER_SIZE]

/-- C9: a successful write leaves `file_type`, `header_end_byte` and
`max_size` unchanged (both the in-memory mirrors and the on-disk header
bytes at offsets 0-7 and 16); `content_size` is the only header field write
may modify, and it never decreases. -/
theorem C9_write_frame (st : DATFile) (buf : List Nat) (k : Nat) (st2 : DATFile)
    (h17 : HEADER_SIZE ≤ st.rawCursor)
    (hw : st.write buf = some (Except.ok (k, st2))) :
    st2.file_type = st.file_type
    ∧ st2.header_end_byte = st.header_end_byte
    ∧ st2.max_size = st.max_size
    ∧ st.content_size ≤ st2.content_size
    ∧ (∀ i, i < 8 → st2.fileData.getD i 0 = st.fileData.getD i 0)
    ∧ st2.fileData.getD 16 0 = st.fileData.getD 16 0 := by
  have h17n : HEADER_SIZE = 17 := rfl
  have hic : INDEX_CONTENT_SIZE = 8 := rfl
  have h17z : (17 : Int) ≤ (st.rawCursor : Int) := by exact_mod_cast h17
  simp only [DATFile.write] at hw
  have ha : ¬ ((st.rawCursor : Int) + 0 < (HEADER_SIZE : Int)) := by
    rw [show ((HEADER_SIZE : Nat) : Int) = 17 from rfl]
    omega
  rw [if_neg ha] at hw
  by_cases hb : 2 ^ 32 ≤ buf.length
  · rw [if_pos hb] at hw
    exact absurd hw (by simp)
  rw [if_neg hb] at hw
  by_cases hc : 2 ^ 32 ≤ wrapSub64 st.rawCursor HEADER_SIZE % 2 ^ 32
      + (buf.length + 1) % 2 ^ 32
  · rw [if_pos hc] at hw
    exact absurd hw (by simp)
  rw [if_neg hc] at hw
  by_cases hd : st.content_size
        < wrapSub64 st.rawCursor HEADER_SIZE % 2 ^ 32 + (buf.length + 1) % 2 ^ 32
      ∧ st.max_size
        < wrapSub64 st.rawCursor HEADER_SIZE % 2 ^ 32 + (buf.length + 1) % 2 ^ 32
  · rw [if_pos hd] at hw
    exact absurd hw (by simp)
  rw [if_neg hd] at hw
  injection hw with hw1
  injection hw1 with hw2
  rw [Prod.mk.injEq] at hw2
  obtain ⟨hk, hst⟩ := hw2
  subst hst
  by_cases hup : st.content_size
      < wrapSub64 st.rawCursor HEADER_SIZE % 2 ^ 32 + (buf.length + 1) % 2 ^ 32
  · simp only [if_pos hup, DATFile.write_content_size_header]
    refine ⟨by trivial, by trivial, by trivial, by omega, ?_, ?_⟩
    · intro i hi
      rw [writeBytesAt_getD_lt _ _ _ _ (by omega),
        writeBytesAt_getD_lt _ _ _ _ (by omega)]
    · rw [writeBytesAt_getD_lt _ _ _ _ (by omega),
        writeBytesAt_getD_ge _ _ _ _ (by simp [u32_le_bytes, hic])]
  · simp only [if_neg hup]
    refine ⟨by trivial, by trivial, by trivial, by omega, ?_, ?_⟩
    · intro i hi
      rw [writeBytesAt_getD_lt _ _ _ _ (by omega)]
    · rw [writeBytesAt_getD_lt _ _ _ _ (by omega)]

/-- An open DATFile with content_size 2 and max_size 4 used by the write
witnesses. -/
def writeWitnessFile : DATFile :=
  ⟨2, DATType.Unknown, 0xFF, 4, 17, List.replicate 36 0⟩

/-- Result state of writing one byte 0x41 to `writeWitnessFile`. -/
def writeWitnessResult : DATFile :=
  ⟨2, DATType.Unknown, 0xFF, 4, 18, writeBytesAt (List.replicate 36 0) 17 [0x41]⟩

/-- Witness for C9 at a concrete successful write. -/
theorem C9_write_frame_w :
    writeWitnessFile.write [0x41] = some (Except.ok (1, writeWitnessResult))
    ∧ writeWitnessResult.max_size = writeWitnessFile.max_size
    ∧ writeWitnessFile.content_size ≤ writeWitnessResult.content_size
    ∧ writeWitnessResult.fileData.getD 16 0 = writeWitnessFile.fileData.getD 16 0 := by
  have hw : writeWitnessFile.write [0x41] = some (Except.ok (1, writeWitnessResult)) := by
    decide
  have hframe := C9_write_frame writeWitnessFile [0x41] 1 writeWitnessResult
    (by decide) hw
  exact ⟨hw, hframe.2.2.1, hframe.2.2.2.1, hframe.2.2.2.2.2⟩

theorem getD_replicate (n a i : Nat) (h : i < n) :
    (List.replicate n a).getD i 0 = a := by
  rw [List.getD_eq_getElem?_getD, List.getElem?_replicate, if_pos h]
  rfl

theorem seek_start_eq (st : DATFile) (off : Nat) :
    st.seek (SeekFrom.start off) = Except.ok
      ({ st with rawCursor := HEADER_SIZE + off },
        wrapSub64 (HEADER_SIZE + off) HEADER_SIZE) := rfl

theorem seek_fromEnd_zero (st : DATFile)
    (hlen : st.fileData.length = st.max_size + 32)
    (hcs1 : 1 ≤ st.content_size) (hms : st.max_size < 2 ^ 32)
    (hcm : st.content_size ≤ st.max_size) :
    st.seek (SeekFrom.fromEnd 0) = Except.ok
      ({ st with rawCursor := HEADER_SIZE + (st.content_size - 1) },
        st.content_size - 1) := by
  have h17n : HEADER_SIZE = 17 := rfl
  have hmo : ((MAX_SIZE_OFFSET : Nat) : Int) = 32 := rfl
  have hhs : ((HEADER_SIZE : Nat) : Int) = 17 := rfl
  have key : (st.fileData.length : Int) +
      (0 - ((st.max_size : Int) - (st.content_size : Int))
        - ((MAX_SIZE_OFFSET : Int) - (HEADER_SIZE : Int)) - 1)
      = ((HEADER_SIZE + (st.content_size - 1) : Nat) : Int) := by
    rw [hlen, hmo]
    push_cast [Nat.cast_sub hcs1, hhs]
    ring
  have hnn : ¬ (((HEADER_SIZE + (st.content_size - 1) : Nat) : Int) < 0) := by
    omega
  simp only [DATFile.seek, rawSeek]
  rw [key, if_neg hnn, Int.toNat_natCast]
  show Except.ok ({ st with rawCursor := HEADER_SIZE + (st.content_size - 1) },
    wrapSub64 (HEADER_SIZE + (st.content_size - 1)) HEADER_SIZE) = _
  rw [wrapSub64_of_le _ (by omega) (by omega), Nat.add_sub_cancel_left]

/-- C7: a successful `set_content_size(n)` with prior size `s` pads the
newly exposed bytes (grow) with the per-type mask byte — so a masked read
of the region yields NUL — or the vacated bytes (shrink) with literal
0x00, writes the new size into the content-size header field, and restores
the pre-call raw cursor. -/
theorem C7_set_content_size (st : DATFile) (n : Nat)
    (hcs1 : 1 ≤ st.content_size)
    (hcm : st.content_size ≤ st.max_size)
    (hms : st.max_size < 2 ^ 32)
    (hlen : st.fileData.length = st.max_size + 32)
    (hne : n ≠ st.content_size) (hn1 : 1 ≤ n) (hnm : n ≤ st.max_size) :
    ∃ st2, st.set_content_size n = Except.ok st2
      ∧ st2.content_size = n
      ∧ st2.rawCursor = st.rawCursor
      ∧ (∀ j, j < 4 →
          st2.fileData.getD (INDEX_CONTENT_SIZE + j) 0 = (u32_le_bytes n).getD j 0)
      ∧ (st.content_size < n → ∀ i, st.content_size - 1 ≤ i → i < n - 1 →
          st2.fileData.getD (HEADER_SIZE + i) 0 = (get_mask_for_type st.file_type).getD 0
          ∧ ∀ mv, get_mask_for_type st.file_type = some mv →
              st2.fileData.getD (HEADER_SIZE + i) 0 ^^^ mv = 0)
      ∧ (n < st.content_size → ∀ i, n ≤ i → i < st.content_size →
          st2.fileData.getD (HEADER_SIZE + i) 0 = 0) := by
  have h17n : HEADER_SIZE = 17 := rfl
  have hic : INDEX_CONTENT_SIZE = 8 := rfl
  have hle4 : (u32_le_bytes n).length = 4 := rfl
  unfold DATFile.set_content_size
  rw [if_neg hne, if_neg (show ¬ n = 0 by omega),
    if_neg (show ¬ st.max_size < n by omega)]
  rcases Nat.lt_or_ge st.content_size n with hgrow | hge
  · rw [if_pos hgrow, seek_fromEnd_zero st hlen hcs1 hms hcm]
    simp only [if_pos hgrow]
    refine ⟨_, rfl, rfl, rfl, ?_, ?_, ?_⟩
    · intro j hj
      simp only [DATFile.write_content_size_header]
      rw [writeBytesAt_getD_mid _ _ _ _ (by omega) (by rw [hle4]; omega)]
      congr 1
      omega
    · intro _ i hi1 hi2
      simp only [DATFile.write_content_size_header]
      constructor
      · rw [writeBytesAt_getD_ge _ _ _ _ (by rw [hle4]; omega),
          writeBytesAt_getD_mid _ _ _ _ (by omega) (by rw [List.length_replicate]; omega),
          getD_replicate _ _ _ (by omega)]
      · intro mv hmv
        rw [writeBytesAt_getD_ge _ _ _ _ (by rw [hle4]; omega),
          writeBytesAt_getD_mid _ _ _ _ (by omega) (by rw [List.length_replicate]; omega),
          getD_replicate _ _ _ (by omega), hmv]
        exact Nat.xor_self mv
    · intro hlt
      omega
  · have hshrink : n < st.content_size := by omega
    rw [if_neg (show ¬ st.content_size < n by omega), seek_start_eq st n]
    simp only [if_neg (show ¬ st.content_size < n by omega)]
    refine ⟨_, rfl, rfl, rfl, ?_, ?_, ?_⟩
    · intro j hj
      simp only [DATFile.write_content_size_header]
      rw [writeBytesAt_getD_mid _ _ _ _ (by omega) (by rw [hle4]; omega)]
      congr 1
      omega
    · intro hlt
      omega
    · intro _ i hi1 hi2
      simp only [DATFile.write_content_size_header]
      rw [writeBytesAt_getD_ge _ _ _ _ (by rw [hle4]; omega),
        writeBytesAt_getD_mid _ _ _ _ (by omega) (by rw [List.length_replicate]; omega),
        getD_replicate _ _ _ (by omega)]

/-- An open Macro-type (masked) DATFile with content_size 2 and max_size 8. -/
def growWitnessFile : DATFile :=
  ⟨2, DATType.Macro, 0xFF, 8, 17, List.replicate 40 0⟩

/-- Witness for C7 at a concrete grow from content_size 2 to 4 on a masked
file. -/
theorem C7_set_content_size_w :
    (1 ≤ growWitnessFile.content_size ∧ (4 : Nat) ≠ growWitnessFile.content_size
      ∧ 4 ≤ growWitnessFile.max_size)
    ∧ (∃ st2, growWitnessFile.set_content_size 4 = Except.ok st2
        ∧ st2.content_size = 4
        ∧ st2.rawCursor = growWitnessFile.rawCursor
        ∧ (∀ j, j < 4 → st2.fileData.getD (INDEX_CONTENT_SIZE + j) 0
            = (u32_le_bytes 4).getD j 0)
        ∧ (growWitnessFile.content_size < 4 → ∀ i,
            growWitnessFile.content_size - 1 ≤ i → i < 4 - 1 →
            st2.fileData.getD (HEADER_SIZE + i) 0
              = (get_mask_for_type growWitnessFile.file_type).getD 0
            ∧ ∀ mv, get_mask_for_type growWitnessFile.file_type = some mv →
                st2.fileData.getD (HEADER_SIZE + i) 0 ^^^ mv = 0)
        ∧ (4 < growWitnessFile.content_size → ∀ i, 4 ≤ i →
            i < growWitnessFile.content_size →
            st2.fileData.getD (HEADER_SIZE + i) 0 = 0)) :=
  ⟨⟨by decide, by decide, by decide⟩,
    C7_set_content_size growWitnessFile 4 (by decide) (by decide) (by decide)
      (by decide) (by decide) (by decide) (by decide)⟩

/-- Standard UTF-8 validity of a byte sequence (the acceptance set of Rust's
`str::from_utf8` / `String::from_utf8`): ASCII, 2-byte C2-DF, 3-byte with
the E0/ED special ranges excluding overlongs and surrogates, 4-byte with
the F0/F4 special ranges. -/
def utf8Valid : List Nat → Bool
  | [] => true
  | b :: rest =>
    if b < 0x80 then utf8Valid rest
    else if b < 0xC2 then false
    else if b < 0xE0 then
      match rest with
      | c1 :: rest2 =>
        if 0x80 ≤ c1 ∧ c1 < 0xC0 then utf8Valid rest2 else false
      | [] => false
    else if b < 0xF0 then
      match rest with
      | c1 :: c2 :: rest2 =>
        if (if b = 0xE0 then 0xA0 ≤ c1 ∧ c1 < 0xC0
            else if b = 0xED then 0x80 ≤ c1 ∧ c1 < 0xA0
            else 0x80 ≤ c1 ∧ c1 < 0xC0)
            ∧ 0x80 ≤ c2 ∧ c2 < 0xC0
        then utf8Valid rest2 else false
      | _ => false
    else if b < 0xF5 then
      match rest with
      | c1 :: c2 :: c3 :: rest2 =>
        if (if b = 0xF0 then 0x90 ≤ c1 ∧ c1 < 0xC0
            else if b = 0xF4 then 0x80 ≤ c1 ∧ c1 < 0x90
            else 0x80 ≤ c1 ∧ c1 < 0xC0)
            ∧ (0x80 ≤ c2 ∧ c2 < 0xC0) ∧ (0x80 ≤ c3 ∧ c3 < 0xC0)
        then utf8Valid rest2 else false
      | _ => false
    else false

/-- Length of a section header in bytes (`SECTION_HEADER_SIZE`,
section.rs). -/
def SECTION_HEADER_SIZE : Nat := 3

/-- Parsed form of a `SectionData` borrowed from a byte buffer
(section.rs): the single tag byte, the declared `content_size` (u16), and
the raw (UTF-8-validated) content bytes. -/
structure PSection where
  tag : Nat
  content_size : Nat
  content : List Nat
deriving DecidableEq, Repr

/-- Model of `impl TryFrom<&[u8]> for SectionData` (section.rs), also used
for `Section::try_from` (which performs the identical steps).  `none`
models a slice-index panic (input shorter than the 3-byte header, or a
content range `3..len-1` with `len - 1 < 3`).  The final byte of the slice
is dropped unexamined; the content bytes are only checked to be UTF-8. -/
def section_data_try_from (x : List Nat) : Option (Except DATError PSection) :=
  if x.length < 1 then none
  else if 0x80 ≤ x.getD 0 0 then some (Except.error DATError.BadEncoding)
  else if x.length < SECTION_HEADER_SIZE then none
  else
    let content_size := x.getD 1 0 + 2 ^ 8 * x.getD 2 0
    let remaining_buf_size := x.length - SECTION_HEADER_SIZE
    if remaining_buf_size < content_size then
      some (Except.error DATError.Overflow)
    else if content_size < remaining_buf_size then
      some (Except.error DATError.Underflow)
    else if x.length < 4 then none
    else
      let content := (x.drop 3).take (x.length - 1 - 3)
      if utf8Valid content then
        some (Except.ok ⟨x.getD 0 0, content_size, content⟩)
      else some (Except.error DATError.BadEncoding)

/-- Model of the loop body of `as_section_vec` (section.rs), with `cursor`
the walking offset.  `none` models a panic: a truncated record header, a
content range past the end of the buffer, a `content_size` of zero (usize
underflow computing `content_size - 1`), or an out-of-range read of the
terminator byte.  Errors are returned as in the source: `Underflow` for an
embedded NUL before the declared end, `Overflow` for a non-NUL byte at the
declared end, `BadEncoding` for an invalid tag or content. -/
def as_section_vec_loop (bytes : List Nat) (cursor : Nat) :
    Option (Except DATError (List PSection)) :=
  if h : cursor < bytes.length then
    if bytes.length < cursor + SECTION_HEADER_SIZE then none
    else
      let tagByte := bytes.getD cursor 0
      let content_size := bytes.getD (cursor + 1) 0 + 2 ^ 8 * bytes.getD (cursor + 2) 0
      if 0x80 ≤ tagByte then some (Except.error DATError.BadEncoding)
      else if content_size = 0 then none
      else if bytes.length < cursor + 3 + (content_size - 1) then none
      else
        let content := (bytes.drop (cursor + 3)).take (content_size - 1)
        let cursor2 := cursor + 3 + content_size
        if content.contains 0 then some (Except.error DATError.Underflow)
        else if bytes.length ≤ cursor2 - 1 then none
        else if bytes.getD (cursor2 - 1) 0 ≠ 0 then
          some (Except.error DATError.Overflow)
        else if utf8Valid content then
          match as_section_vec_loop bytes cursor2 with
          | none => none
          | some (Except.error e) => some (Except.error e)
          | some (Except.ok rest) =>
            some (Except.ok (⟨tagByte, content_size, content⟩ :: rest))
        else some (Except.error DATError.BadEncoding)
  else some (Except.ok [])
termination_by bytes.length - cursor
decreasing_by
  simp_wf
  omega

/-- Model of `as_section_vec` (section.rs): walks the buffer decoding
records until the cursor reaches the buffer length. -/
def as_section_vec (bytes : List Nat) : Option (Except DATError (List PSection)) :=
  as_section_vec_loop bytes 0

theorem take_drop_contains_zero_iff (l : List Nat) (a b : Nat)
    (hab : a + b ≤ l.length) :
    ((l.drop a).take b).contains 0 = true ↔ ∃ j, j < b ∧ l.getD (a + j) 0 = 0 := by
  rw [List.contains_iff_exists_mem_beq]
  constructor
  · rintro ⟨x, hx, hbeq⟩
    have hx0 : (0 : Nat) = x := eq_of_beq hbeq
    subst hx0
    obtain ⟨j, hj, hje⟩ := List.mem_iff_getElem.mp hx
    have hjb : j < b := by
      simp only [List.length_take, List.length_drop] at hj
      omega
    have hidx : a + j < l.length := by omega
    have hjd : j < (l.drop a).length := by
      simp only [List.length_drop]
      omega
    have hje2 : (l.drop a).get ⟨j, hjd⟩ = 0 := by
      simpa [List.get_eq_getElem, List.getElem_take] using hje
    refine ⟨j, hjb, ?_⟩
    rw [List.getD_eq_getElem l 0 hidx, List.getElem_drop' l (by omega)]
    rw [List.get_eq_getElem] at hje2
    exact hje2
  · rintro ⟨j, hjb, hj0⟩
    have hidx : a + j < l.length := by omega
    rw [List.getD_eq_getElem l 0 hidx] at hj0
    refine ⟨0, ?_, by simp⟩
    apply List.mem_iff_getElem.mpr
    refine ⟨j, by simp only [List.length_take, List.length_drop]; omega, ?_⟩
    rw [List.getElem_take, ← List.getElem_drop' l hidx]
    exact hj0

/-- C10: single-record decoding accepts any slice whose total length equals
the declared `content_size + 3` with a UTF-8 tag and payload; the final
byte of the slice is dropped without being checked to be NUL and embedded
NUL bytes in the payload are accepted, so success does not imply a 0x00
terminator. -/
theorem C10_section_try_from (x : List Nat)
    (htag : x.getD 0 0 < 0x80)
    (hcs1 : 1 ≤ x.getD 1 0 + 2 ^ 8 * x.getD 2 0)
    (hlen : x.length = x.getD 1 0 + 2 ^ 8 * x.getD 2 0 + 3)
    (hutf : utf8Valid ((x.drop 3).take (x.length - 1 - 3)) = true) :
    section_data_try_from x = some (Except.ok
      ⟨x.getD 0 0, x.getD 1 0 + 2 ^ 8 * x.getD 2 0,
        (x.drop 3).take (x.length - 1 - 3)⟩) := by
  have hsh : SECTION_HEADER_SIZE = 3 := rfl
  simp only [section_data_try_from]
  rw [if_neg (show ¬ x.length < 1 by omega),
    if_neg (show ¬ 0x80 ≤ x.getD 0 0 by omega),
    if_neg (show ¬ x.length < SECTION_HEADER_SIZE by omega),
    if_neg (show ¬ x.length - SECTION_HEADER_SIZE
      < x.getD 1 0 + 2 ^ 8 * x.getD 2 0 by omega),
    if_neg (show ¬ x.getD 1 0 + 2 ^ 8 * x.getD 2 0
      < x.length - SECTION_HEADER_SIZE by omega),
    if_neg (show ¬ x.length < 4 by omega),
    if_pos hutf]

/-- A 7-byte record whose payload contains an embedded NUL and whose final
byte is 0x37, not a NUL terminator. -/
def oddSectionBytes : List Nat := [0x41, 0x04, 0x00, 0x42, 0x00, 0x43, 0x37]

/-- Witness for C10: the record above decodes successfully although its
payload embeds a NUL and its last byte is not 0x00. -/
theorem C10_section_try_from_w :
    (oddSectionBytes.getD 0 0 < 0x80
      ∧ oddSectionBytes.length = oddSectionBytes.getD 1 0
          + 2 ^ 8 * oddSectionBytes.getD 2 0 + 3
      ∧ oddSectionBytes.getD (oddSectionBytes.length - 1) 0 ≠ 0)
    ∧ section_data_try_from oddSectionBytes
        = some (Except.ok ⟨0x41, 4, [0x42, 0x00, 0x43]⟩) :=
  ⟨⟨by decide, by decide, by decide⟩,
    C10_section_try_from oddSectionBytes (by decide) (by decide) (by decide)
      (by decide)⟩

/-- C8 (amended): during batch section decoding, at any record offset
`cursor`, an embedded NUL before the record's declared end yields an
`Underflow` error, a non-NUL byte at the declared end yields an `Overflow`
error, the walk stops successfully exactly when the cursor reaches the
buffer length, and trailing partial data — a truncated 3-byte header, a
declared content extent past the end of the buffer, or a terminator index
at the buffer end — makes the code panic on a slice index (modelled as
`none`) rather than return an error. -/
theorem C8_section_vec_behaviour (bytes : List Nat) (cursor : Nat) :
    (cursor < bytes.length → bytes.length < cursor + 3 →
      as_section_vec_loop bytes cursor = none)
    ∧ (cursor + 3 ≤ bytes.length → bytes.getD cursor 0 < 0x80 →
        1 ≤ bytes.getD (cursor + 1) 0 + 2 ^ 8 * bytes.getD (cursor + 2) 0 →
        bytes.length < cursor + 2
          + (bytes.getD (cursor + 1) 0 + 2 ^ 8 * bytes.getD (cursor + 2) 0) →
        as_section_vec_loop bytes cursor = none)
    ∧ (cursor + 3 ≤ bytes.length → bytes.getD cursor 0 < 0x80 →
        1 ≤ bytes.getD (cursor + 1) 0 + 2 ^ 8 * bytes.getD (cursor + 2) 0 →
        bytes.length = cursor + 2
          + (bytes.getD (cursor + 1) 0 + 2 ^ 8 * bytes.getD (cursor + 2) 0) →
        (∀ j, j < bytes.getD (cursor + 1) 0 + 2 ^ 8 * bytes.getD (cursor + 2) 0 - 1 →
          bytes.getD (cursor + 3 + j) 0 ≠ 0) →
        as_section_vec_loop bytes cursor = none)
    ∧ (cursor + 3 ≤ bytes.length → bytes.getD cursor 0 < 0x80 →
        1 ≤ bytes.getD (cursor + 1) 0 + 2 ^ 8 * bytes.getD (cursor + 2) 0 →
        cursor + 2 + (bytes.getD (cursor + 1) 0 + 2 ^ 8 * bytes.getD (cursor + 2) 0)
          ≤ bytes.length →
        (∃ j, j < bytes.getD (cursor + 1) 0 + 2 ^ 8 * bytes.getD (cursor + 2) 0 - 1
          ∧ bytes.getD (cursor + 3 + j) 0 = 0) →
        as_section_vec_loop bytes cursor = some (Except.error DATError.Underflow))
    ∧ (cursor + 3 ≤ bytes.length → bytes.getD cursor 0 < 0x80 →
        1 ≤ bytes.getD (cursor + 1) 0 + 2 ^ 8 * bytes.getD (cursor + 2) 0 →
        cursor + 3 + (bytes.getD (cursor + 1) 0 + 2 ^ 8 * bytes.getD (cursor + 2) 0)
          ≤ bytes.length →
        (∀ j, j < bytes.getD (cursor + 1) 0 + 2 ^ 8 * bytes.getD (cursor + 2) 0 - 1 →
          bytes.getD (cursor + 3 + j) 0 ≠ 0) →
        bytes.getD (cursor + 2
          + (bytes.getD (cursor + 1) 0 + 2 ^ 8 * bytes.getD (cursor + 2) 0)) 0 ≠ 0 →
        as_section_vec_loop bytes cursor = some (Except.error DATError.Overflow))
    ∧ (cursor = bytes.length →
        as_section_vec_loop bytes cursor = some (Except.ok [])) := by
  have hsh : SECTION_HEADER_SIZE = 3 := rfl
  refine ⟨?_, ?_, ?_, ?_, ?_, ?_⟩
  · intro h1 h2
    rw [as_section_vec_loop, dif_pos h1, if_pos (by omega)]
  · intro h1 h2 h3 h4
    rw [as_section_vec_loop, dif_pos (by omega),
      if_neg (show ¬ bytes.length < cursor + SECTION_HEADER_SIZE by omega),
      if_neg (show ¬ 0x80 ≤ bytes.getD cursor 0 by omega),
      if_neg (show ¬ bytes.getD (cursor + 1) 0 + 2 ^ 8 * bytes.getD (cursor + 2) 0
        = 0 by omega),
      if_pos (show bytes.length < cursor + 3
        + (bytes.getD (cursor + 1) 0 + 2 ^ 8 * bytes.getD (cursor + 2) 0 - 1) by
          omega)]
  · intro h1 h2 h3 h4 h5
    rw [as_section_vec_loop, dif_pos (by omega),
      if_neg (show ¬ bytes.length < cursor + SECTION_HEADER_SIZE by omega),
      if_neg (show ¬ 0x80 ≤ bytes.getD cursor 0 by omega),
      if_neg (show ¬ bytes.getD (cursor + 1) 0 + 2 ^ 8 * bytes.getD (cursor + 2) 0
        = 0 by omega),
      if_neg (show ¬ bytes.length < cursor + 3
        + (bytes.getD (cursor + 1) 0 + 2 ^ 8 * bytes.getD (cursor + 2) 0 - 1) by
          omega),
      if_neg ?_, if_pos (by omega)]
    rw [Bool.not_eq_true, ← Bool.not_eq_true,
      take_drop_contains_zero_iff bytes (cursor + 3) _ (by omega)]
    push_neg
    intro j hj
    exact h5 j hj
  · intro h1 h2 h3 h4 h5
    rw [as_section_vec_loop, dif_pos (by omega),
      if_neg (show ¬ bytes.length < cursor + SECTION_HEADER_SIZE by omega),
      if_neg (show ¬ 0x80 ≤ bytes.getD cursor 0 by omega),
      if_neg (show ¬ bytes.getD (cursor + 1) 0 + 2 ^ 8 * bytes.getD (cursor + 2) 0
        = 0 by omega),
      if_neg (show ¬ bytes.length < cursor + 3
        + (bytes.getD (cursor + 1) 0 + 2 ^ 8 * bytes.getD (cursor + 2) 0 - 1) by
          omega),
      if_pos ((take_drop_contains_zero_iff bytes (cursor + 3) _ (by omega)).mpr ?_)]
    obtain ⟨j, hj, hj0⟩ := h5
    exact ⟨j, hj, hj0⟩
  · intro h1 h2 h3 h4 h5 h6
    rw [as_section_vec_loop, dif_pos (by omega),
      if_neg (show ¬ bytes.length < cursor + SECTION_HEADER_SIZE by omega),
      if_neg (show ¬ 0x80 ≤ bytes.getD cursor 0 by omega),
      if_neg (show ¬ bytes.getD (cursor + 1) 0 + 2 ^ 8 * bytes.getD (cursor + 2) 0
        = 0 by omega),
      if_neg (show ¬ bytes.length < cursor + 3
        + (bytes.getD (cursor + 1) 0 + 2 ^ 8 * bytes.getD (cursor + 2) 0 - 1) by
          omega),
      if_neg ?_, if_neg (show ¬ bytes.length ≤ cursor + 3
        + (bytes.getD (cursor + 1) 0 + 2 ^ 8 * bytes.getD (cursor + 2) 0) - 1 by
          omega),
      if_pos ?_]
    · show bytes.getD (cursor + 3
        + (bytes.getD (cursor + 1) 0 + 2 ^ 8 * bytes.getD (cursor + 2) 0) - 1) 0 ≠ 0
      have he : cursor + 3
          + (bytes.getD (cursor + 1) 0 + 2 ^ 8 * bytes.getD (cursor + 2) 0) - 1
          = cursor + 2
          + (bytes.getD (cursor + 1) 0 + 2 ^ 8 * bytes.getD (cursor + 2) 0) := by
        omega
      rw [he]
      exact h6
    · rw [Bool.not_eq_true, ← Bool.not_eq_true,
        take_drop_contains_zero_iff bytes (cursor + 3) _ (by omega)]
      push_neg
      intro j hj
      exact h5 j hj
  · intro h1
    rw [as_section_vec_loop, dif_neg (by omega)]

/-- C8 counterexample: a buffer holding only a trailing partial record (a
single tag byte, no length field) makes `as_section_vec` panic slicing the
3-byte header (modelled as `none`) instead of returning a malformed-buffer
error as the claim states. -/
theorem C8_trailing_partial_panics : as_section_vec [0x41] = none := by
  rw [as_section_vec, as_section_vec_loop]
  norm_num

/-- A 7-byte buffer holding one complete record whose declared content
embeds a NUL byte before the declared end. -/
def underflowBytes : List Nat := [0x41, 0x04, 0x00, 0x42, 0x00, 0x43, 0x00]

/-- Witness for C8's amended theorem: the embedded-NUL record above makes
the batch decoder return an `Underflow` error. -/
theorem C8_section_vec_behaviour_w :
    (0 + 3 ≤ underflowBytes.length
      ∧ underflowBytes.getD 0 0 < 0x80
      ∧ underflowBytes.getD 4 0 = 0)
    ∧ as_section_vec_loop underflowBytes 0 = some (Except.error DATError.Underflow) :=
  ⟨⟨by decide, by decide, by decide⟩,
    (C8_section_vec_behaviour underflowBytes 0).2.2.2.1 (by decide) (by decide)
      (by decide) (by decide) ⟨1, by decide, by decide⟩⟩

/-- Rust `MacroIcon` enum (icon.rs): every valid macro icon. -/
inductive MacroIcon where
  | DefaultIcon
  | DPS1
  | DPS2
  | DPS3
  | Tank1
  | Tank2
  | Tank3
  | Healer1
  | Healer2
  | Healer3
  | CrafterPurple1
  | CrafterPurple2
  | CrafterPurple3
  | CrafterYellow1
  | CrafterYellow2
  | CrafterYellow3
  | CrafterGreen1
  | CrafterGreen2
  | CrafterGreen3
  | ItemHammer
  | ItemSword
  | ItemShield
  | ItemRing
  | ItemShoes
  | ItemHat
  | ItemBottle
  | ItemBread
  | Gatherer1
  | Gatherer2
  | Gatherer3
  | Number0
  | Number1
  | Number2
  | Number3
  | Number4
  | Number5
  | Number6
  | Number7
  | Number8
  | Number9
  | Number10
  | InverseNumber0
  | InverseNumber1
  | InverseNumber2
  | InverseNumber3
  | InverseNumber4
  | InverseNumber5
  | InverseNumber6
  | InverseNumber7
  | InverseNumber8
  | InverseNumber9
  | InverseNumber10
  | SymbolArrowLeft
  | SymbolArrowRight
  | SymbolArrowUp
  | SymbolArrowDown
  | SymbolCircle
  | SymbolTriangle
  | SymbolSquare
  | SymbolX
  | SymbolNo
  | SymbolWarning
  | SymbolCheck
  | SymbolStar
  | SymbolQuestion
  | SymbolExclamation
  | SymbolPlus
  | SymbolMinus
  | SymbolClock
  | SymbolBulb
  | SymbolCog
  | SymbolSearch
  | SymbolSpeech
  | SymbolHeart
  | SymbolSpade
  | SymbolClub
  | SymbolDiamond
  | SymbolDice
  | CrystalFire
  | CrystalIce
  | CrystalWind
  | CrystalEarth
  | CrystalLightning
  | CrystalWater
  | NoIcon
deriving DecidableEq, Repr

/-- The 85 (key, id, icon) arms of `macro_icon_from_key_and_id`
(icon.rs), in source order. -/
def macroIconTable : List (String × String × MacroIcon) := [
  ( "000", "0000000", MacroIcon.NoIcon),
  ( "001", "00101D1", MacroIcon.DefaultIcon),
  ( "002", "0010235", MacroIcon.DPS1),
  ( "003", "0010236", MacroIcon.DPS1),
  ( "004", "0010237", MacroIcon.DPS1),
  ( "005", "0010249", MacroIcon.Tank1),
  ( "006", "001024A", MacroIcon.Tank2),
  ( "007", "001024B", MacroIcon.Tank3),
  ( "008", "001025D", MacroIcon.Healer1),
  ( "009", "001025E", MacroIcon.Healer2),
  ( "00A", "001025F", MacroIcon.Healer3),
  ( "00B", "00101E5", MacroIcon.CrafterPurple1),
  ( "00C", "00101E6", MacroIcon.CrafterPurple2),
  ( "00D", "00101E7", MacroIcon.CrafterPurple3),
  ( "00E", "00101F9", MacroIcon.CrafterYellow1),
  ( "00F", "00101FA", MacroIcon.CrafterYellow2),
  ( "010", "00101FB", MacroIcon.CrafterYellow3),
  ( "011", "001020D", MacroIcon.CrafterGreen1),
  ( "012", "001020E", MacroIcon.CrafterGreen2),
  ( "013", "001020F", MacroIcon.CrafterGreen3),
  ( "014", "00005E9", MacroIcon.ItemHammer),
  ( "015", "000061B", MacroIcon.ItemSword),
  ( "016", "000064D", MacroIcon.ItemShield),
  ( "017", "000067E", MacroIcon.ItemRing),
  ( "018", "00006B1", MacroIcon.ItemShoes),
  ( "019", "00006E2", MacroIcon.ItemHat),
  ( "01A", "0000715", MacroIcon.ItemBottle),
  ( "01B", "0000746", MacroIcon.ItemBread),
  ( "01C", "0010221", MacroIcon.Gatherer1),
  ( "01D", "0010222", MacroIcon.Gatherer2),
  ( "01E", "0010223", MacroIcon.Gatherer3),
  ( "01F", "0010271", MacroIcon.Number0),
  ( "020", "0010272", MacroIcon.Number1),
  ( "021", "0010273", MacroIcon.Number2),
  ( "022", "0010274", MacroIcon.Number3),
  ( "023", "0010275", MacroIcon.Number4),
  ( "024", "0010276", MacroIcon.Number5),
  ( "025", "0010277", MacroIcon.Number6),
  ( "026", "0010278", MacroIcon.Number7),
  ( "027", "0010279", MacroIcon.Number8),
  ( "028", "001027A", MacroIcon.Number9),
  ( "029", "001027B", MacroIcon.Number10),
  ( "02A", "0010285", MacroIcon.InverseNumber0),
  ( "02B", "0010286", MacroIcon.InverseNumber1),
  ( "02C", "0010287", MacroIcon.InverseNumber2),
  ( "02D", "0010288", MacroIcon.InverseNumber3),
  ( "02E", "0010289", MacroIcon.InverseNumber4),
  ( "02F", "001028A", MacroIcon.InverseNumber5),
  ( "030", "001028B", MacroIcon.InverseNumber6),
  ( "031", "001028C", MacroIcon.InverseNumber7),
  ( "032", "001028D", MacroIcon.InverseNumber8),
  ( "033", "001028E", MacroIcon.InverseNumber9),
  ( "034", "001028F", MacroIcon.InverseNumber10),
  ( "035", "00102FD", MacroIcon.SymbolArrowLeft),
  ( "036", "00102FE", MacroIcon.SymbolArrowRight),
  ( "037", "00102FF", MacroIcon.SymbolArrowUp),
  ( "038", "0010300", MacroIcon.SymbolArrowDown),
  ( "039", "0010301", MacroIcon.SymbolCircle),
  ( "03A", "0010302", MacroIcon.SymbolTriangle),
  ( "03B", "0010303", MacroIcon.SymbolSquare),
  ( "03C", "0010304", MacroIcon.SymbolX),
  ( "03D", "0010305", MacroIcon.SymbolNo),
  ( "03E", "0010306", MacroIcon.SymbolWarning),
  ( "03F", "0010307", MacroIcon.SymbolCheck),
  ( "040", "0010308", MacroIcon.SymbolStar),
  ( "041", "0010309", MacroIcon.SymbolQuestion),
  ( "042", "001030A", MacroIcon.SymbolExclamation),
  ( "043", "001030B", MacroIcon.SymbolPlus),
  ( "044", "001030C", MacroIcon.SymbolMinus),
  ( "045", "001030D", MacroIcon.SymbolClock),
  ( "046", "001030E", MacroIcon.SymbolBulb),
  ( "047", "001030F", MacroIcon.SymbolCog),
  ( "048", "0010310", MacroIcon.SymbolSearch),
  ( "049", "0010311", MacroIcon.SymbolSpeech),
  ( "04A", "0010312", MacroIcon.SymbolHeart),
  ( "04B", "0010313", MacroIcon.SymbolSpade),
  ( "04C", "0010314", MacroIcon.SymbolClub),
  ( "04D", "0010315", MacroIcon.SymbolDiamond),
  ( "04E", "0010316", MacroIcon.SymbolDice),
  ( "04F", "0004E27", MacroIcon.CrystalFire),
  ( "050", "0004E29", MacroIcon.CrystalIce),
  ( "051", "0004E2A", MacroIcon.CrystalWind),
  ( "052", "0004E2C", MacroIcon.CrystalEarth),
  ( "053", "0004E2B", MacroIcon.CrystalLightning),
  ( "054", "0004E28", MacroIcon.CrystalWater)]

/-- Rust `macro_icon_from_key_and_id` (icon.rs): the match of the
(key, id) string pair against the registered pairs is modelled as a
first-match table lookup, `none` when no arm matches. -/
def macro_icon_from_key_and_id (key : String) (idv : String) : Option MacroIcon :=
  (macroIconTable.find? (fun e => key == e.1 && idv == e.2.1)).map (fun e => e.2.2)

/-- Rust `Section` (section.rs): a String-level section record with its
tag, content and declared content size (content byte length plus NUL). -/
structure Section where
  content : String
  content_size : Nat
  tag : String
deriving DecidableEq, Repr

/-- Rust `Section::new` (section.rs): requires a 1-byte tag; content size
is the content byte length plus the terminating NUL and must fit in u16. -/
def Section.new (tag : String) (content : String) : Except DATError Section :=
  if tag.utf8ByteSize ≠ 1 then Except.error DATError.InvalidInput
  else if 2 ^ 16 ≤ content.utf8ByteSize + 1 then Except.error DATError.Overflow
  else Except.ok ⟨content, content.utf8ByteSize + 1, tag⟩

def SECTION_TAG_TITLE : String := "T"

def SECTION_TAG_ICON : String := "I"

def SECTION_TAG_KEY : String := "K"

def SECTION_TAG_LINE : String := "L"

/-- Rust `Macro` (macro.rs): the high-level macro resource. -/
structure Macro where
  icon_key : String
  icon_id : String
  lines : List String
  title : String
deriving DecidableEq, Repr

/-- Rust `Macro::validate` (macro.rs): title at most 20 bytes, registered
icon key/id pair, exactly 15 lines of at most 180 bytes each. -/
def Macro.validate (m : Macro) : Option DATError :=
  if 20 < m.title.utf8ByteSize then some DATError.Overflow
  else if (macro_icon_from_key_and_id m.icon_key m.icon_id).isNone then
    some DATError.InvalidInput
  else if m.lines.length < 15 then some DATError.Underflow
  else if 15 < m.lines.length then some DATError.Overflow
  else if m.lines.any (fun l => 180 < l.utf8ByteSize) then some DATError.Overflow
  else none

/-- The line-section loop of `Macro::as_sections` (macro.rs): one `L`
section per line, propagating the first error. -/
def lines_to_sections : List String → Except DATError (List Section)
  | [] => Except.ok []
  | l :: rest =>
    match Section.new SECTION_TAG_LINE l with
    | Except.error e => Except.error e
    | Except.ok s =>
      match lines_to_sections rest with
      | Except.error e => Except.error e
      | Except.ok secs => Except.ok (s :: secs)

/-- Rust `Macro::as_sections` (macro.rs): a `T` section for the title, an
`I` section for the icon id, a `K` section for the icon key, then one `L`
section per line. -/
def Macro.as_sections (m : Macro) : Except DATError (List Section) :=
  match Section.new SECTION_TAG_TITLE m.title with
  | Except.error e => Except.error e
  | Except.ok s1 =>
    match Section.new SECTION_TAG_ICON m.icon_id with
    | Except.error e => Except.error e
    | Except.ok s2 =>
      match Section.new SECTION_TAG_KEY m.icon_key with
      | Except.error e => Except.error e
      | Except.ok s3 =>
        match lines_to_sections m.lines with
        | Except.error e => Except.error e
        | Except.ok rest => Except.ok ([s1, s2, s3] ++ rest)

/-- The line-collection loop of `Macro::from_sections_unsafe` (macro.rs):
every section after the first three must carry the `L` tag. -/
def collect_lines : List Section → Except DATError (List String)
  | [] => Except.ok []
  | s :: rest =>
    if s.tag ≠ SECTION_TAG_LINE then Except.error DATError.InvalidInput
    else
      match collect_lines rest with
      | Except.error e => Except.error e
      | Except.ok ls => Except.ok (s.content :: ls)

/-- The all-zero section used as the `List.getD` default below; the Rust
code indexes after a length check, so the default is never read. -/
def emptySection : Section := ⟨ "", 0, "" ⟩

/-- Rust `Macro::from_sections_unsafe` (macro.rs), renamed: at least 4
sections, tags `T`, `I`, `K` at positions 0-2, all later sections `L`. -/
def Macro.from_sections_unchecked (sections : List Section) :
    Except DATError Macro :=
  if sections.length < 4 then Except.error DATError.InvalidInput
  else
    let s0 := sections.getD 0 emptySection
    let s1 := sections.getD 1 emptySection
    let s2 := sections.getD 2 emptySection
    if s0.tag ≠ SECTION_TAG_TITLE then Except.error DATError.InvalidInput
    else if s1.tag ≠ SECTION_TAG_ICON then Except.error DATError.InvalidInput
    else if s2.tag ≠ SECTION_TAG_KEY then Except.error DATError.InvalidInput
    else
      match collect_lines (sections.drop 3) with
      | Except.error e => Except.error e
      | Except.ok lines => Except.ok ⟨s2.content, s1.content, lines, s0.content⟩

/-- Rust `Macro::from_sections` (macro.rs): `from_sections_unsafe` then
`validate`, the validation error taking over on failure. -/
def Macro.from_sections (sections : List Section) : Except DATError Macro :=
  match Macro.from_sections_unchecked sections with
  | Except.error e => Except.error e
  | Except.ok m =>
    match m.validate with
    | some e => Except.error e
    | none => Except.ok m

theorem Section.new_ok (tag content : String) (h1 : tag.utf8ByteSize = 1)
    (h2 : content.utf8ByteSize + 1 < 2 ^ 16) :
    Section.new tag content
      = Except.ok ⟨content, content.utf8ByteSize + 1, tag⟩ := by
  unfold Section.new
  rw [if_neg (by omega), if_neg (by omega)]

theorem macro_icon_some_len (key idv : String) (v : MacroIcon)
    (h : macro_icon_from_key_and_id key idv = some v) :
    key.utf8ByteSize = 3 ∧ idv.utf8ByteSize = 7 := by
  unfold macro_icon_from_key_and_id at h
  obtain ⟨e, he, hmap⟩ := Option.map_eq_some'.mp h
  have hp := List.find?_some he
  have hmem := List.mem_of_find?_eq_some he
  have hlen : ∀ x ∈ macroIconTable,
      x.1.utf8ByteSize = 3 ∧ x.2.1.utf8ByteSize = 7 := by decide
  rw [Bool.and_eq_true] at hp
  obtain ⟨hk, hi⟩ := hp
  rw [eq_of_beq hk, eq_of_beq hi]
  exact hlen e hmem

theorem lines_to_sections_ok (ls : List String)
    (h : ∀ l ∈ ls, l.utf8ByteSize ≤ 180) :
    lines_to_sections ls
      = Except.ok (ls.map (fun l => ⟨l, l.utf8ByteSize + 1, SECTION_TAG_LINE⟩)) := by
  induction ls with
  | nil => rfl
  | cons a as ih =>
    have ha : a.utf8ByteSize ≤ 180 := h a (List.mem_cons_self a as)
    have hrec := ih (fun l hl => h l (List.mem_cons_of_mem a hl))
    simp only [lines_to_sections,
      Section.new_ok SECTION_TAG_LINE a (by decide) (by omega), hrec, List.map_cons]

theorem collect_lines_map (ls : List String) :
    collect_lines (ls.map (fun l => ⟨l, l.utf8ByteSize + 1, SECTION_TAG_LINE⟩))
      = Except.ok ls := by
  induction ls with
  | nil => rfl
  | cons a as ih =>
    simp only [List.map_cons, collect_lines]
    rw [if_neg (by simp), ih]

/-- C1: for every Macro that passes validation, serializing to sections
and parsing back yields the same Macro. -/
theorem C1_macro_round_trip (m : Macro) (hv : m.validate = none) :
    ∃ secs, m.as_sections = Except.ok secs
      ∧ Macro.from_sections secs = Except.ok m := by
  have hv2 := hv
  unfold Macro.validate at hv2
  split_ifs at hv2 with h1 h2 h3 h4 h5
  have ht : m.title.utf8ByteSize ≤ 20 := by omega
  obtain ⟨v, hvv⟩ : ∃ v, macro_icon_from_key_and_id m.icon_key m.icon_id
      = some v := by
    rcases hmi : macro_icon_from_key_and_id m.icon_key m.icon_id with _ | w
    · exact absurd (by rw [hmi]; rfl) h2
    · exact ⟨w, rfl⟩
  obtain ⟨hk3, hi7⟩ := macro_icon_some_len _ _ _ hvv
  have hlen : m.lines.length = 15 := by omega
  have hlines : ∀ l ∈ m.lines, l.utf8ByteSize ≤ 180 := by
    intro l hl
    by_contra hgt
    exact h5 (List.any_eq_true.mpr ⟨l, hl, by simp only [decide_eq_true_eq]; omega⟩)
  have hT := Section.new_ok SECTION_TAG_TITLE m.title (by decide) (by omega)
  have hI := Section.new_ok SECTION_TAG_ICON m.icon_id (by decide) (by omega)
  have hK := Section.new_ok SECTION_TAG_KEY m.icon_key (by decide) (by omega)
  have hL := lines_to_sections_ok m.lines hlines
  refine ⟨(⟨m.title, m.title.utf8ByteSize + 1, SECTION_TAG_TITLE⟩ : Section)
      :: ⟨m.icon_id, m.icon_id.utf8ByteSize + 1, SECTION_TAG_ICON⟩
      :: ⟨m.icon_key, m.icon_key.utf8ByteSize + 1, SECTION_TAG_KEY⟩
      :: m.lines.map (fun l => ⟨l, l.utf8ByteSize + 1, SECTION_TAG_LINE⟩),
    ?_, ?_⟩
  · simp only [Macro.as_sections, hT, hI, hK, hL]
    rfl
  · have hun : Macro.from_sections_unchecked
        ((⟨m.title, m.title.utf8ByteSize + 1, SECTION_TAG_TITLE⟩ : Section)
          :: ⟨m.icon_id, m.icon_id.utf8ByteSize + 1, SECTION_TAG_ICON⟩
          :: ⟨m.icon_key, m.icon_key.utf8ByteSize + 1, SECTION_TAG_KEY⟩
          :: m.lines.map (fun l => ⟨l, l.utf8ByteSize + 1, SECTION_TAG_LINE⟩))
        = Except.ok m := by
      simp only [Macro.from_sections_unchecked, List.getD_cons_zero,
        List.getD_cons_succ, List.drop_succ_cons, List.drop_zero]
      rw [if_neg (by simp only [List.length_cons, List.length_map, hlen]; omega),
        if_neg (by simp), if_neg (by simp), if_neg (by simp),
        collect_lines_map]
    simp only [Macro.from_sections, hun, hv]

/-- A concrete valid macro: NoIcon key/id pair, 15 blank lines. -/
def roundTripWitness : Macro :=
  ⟨ "000", "0000000", List.replicate 15 "", "Title" ⟩

/-- Witness for C1: the concrete macro above validates and round-trips. -/
theorem C1_macro_round_trip_w :
    roundTripWitness.validate = none
    ∧ ∃ secs, roundTripWitness.as_sections = Except.ok secs
        ∧ Macro.from_sections secs = Except.ok roundTripWitness :=
  ⟨by decide, C1_macro_round_trip roundTripWitness (by decide)⟩
